import Mathlib

/-!
Shallow embedding of `tasksB.py`: a task-dispatch layer whose operations
(B3 fetch-save, B4 repo-commit, B5 run-query, B6 scrape-save, B7
image-transform, B8 transcribe, B9 md-to-html, B10 csv-filter) are gated by
the sandbox guard B12.  External collaborators (HTTP client, git subprocess,
database drivers, image library, speech model, file system) are modelled as
oracle functions in an `Env`; each operation returns the ordered list of
side effects it performed together with its Python return value, where an
uncaught Python exception is an `Except.error`.
-/

set_option maxHeartbeats 1000000

namespace LlmAgent

/-- Model of Python `str.startswith`: `pat` is a character-prefix of `s`. -/
def listStartsWith : List Char → List Char → Bool
  | [], _ => true
  | _ :: _, [] => false
  | p :: ps, c :: cs => p == c && listStartsWith ps cs

/-- Model of Python `s.startswith(pat)`. -/
def pyStartswith (s pat : String) : Bool :=
  listStartsWith pat.data s.data

/-- Model of Python `s.endswith(pat)`. -/
def pyEndswith (s pat : String) : Bool :=
  listStartsWith pat.data.reverse s.data.reverse

/-- Model of Python `str.replace` on character lists: replace each
non-overlapping occurrence of `pat`, scanning left to right.  The `skip`
counter consumes the remaining characters of an occurrence just replaced. -/
def pyReplaceAux (pat rep : List Char) : Nat → List Char → List Char
  | _, [] => []
  | Nat.succ k, _ :: rest => pyReplaceAux pat rep k rest
  | 0, c :: rest =>
    if listStartsWith pat (c :: rest) then
      rep ++ pyReplaceAux pat rep (pat.length - 1) rest
    else
      c :: pyReplaceAux pat rep 0 rest

/-- Model of Python `s.replace(pat, rep)` (all occurrences, left to right). -/
def pyReplace (s pat rep : String) : String :=
  ⟨pyReplaceAux pat.data rep.data 0 s.data⟩

/-- Model of POSIX `os.path.join(a, b)`: an absolute second component
discards the first. -/
def osPathJoin (a b : String) : String :=
  if pyStartswith b "/" then b
  else if a = "" ∨ pyEndswith a "/" then a ++ b
  else a ++ "/" ++ b

theorem listStartsWith_iff (pat l : List Char) :
    listStartsWith pat l = true ↔ ∃ t, l = pat ++ t := by
  induction pat generalizing l with
  | nil => simp [listStartsWith]
  | cons p ps ih =>
    cases l with
    | nil => simp [listStartsWith]
    | cons c cs =>
      simp only [listStartsWith, Bool.and_eq_true, beq_iff_eq, ih,
        List.cons_append, List.cons.injEq]
      constructor
      · rintro ⟨rfl, t, rfl⟩; exact ⟨t, rfl, rfl⟩
      · rintro ⟨t, rfl, rfl⟩; exact ⟨rfl, t, rfl⟩

instance {ε α : Type} [DecidableEq ε] [DecidableEq α] :
    DecidableEq (Except ε α) := fun a b =>
  match a, b with
  | .ok x, .ok y => decidable_of_iff (x = y) (by simp)
  | .error x, .error y => decidable_of_iff (x = y) (by simp)
  | .ok _, .error _ => isFalse (by simp)
  | .error _, .ok _ => isFalse (by simp)

/-- Single quote character, used inside diagnostic messages. -/
def sq : String := String.singleton (Char.ofNat 39)

/-- The database engine chosen by B5's dispatch-by-extension rule. -/
inductive Engine
  | sqlite
  | duckdb
deriving DecidableEq, Repr

/-- A parsed CSV table as produced by the tabular-data library:
a header row of column names and the data rows in file order. -/
structure Csv where
  header : List String
  rows : List (List String)
deriving DecidableEq, Repr

/-- Python return payloads of the operations (`None` is `Option.none` in
`PyRet`, so only the meaningful success payloads appear here). -/
inductive Payload
  | text (s : String)
  | rows (rs : List String)
  | records (rs : List (List (String × String)))
  | msg (s : String)
deriving DecidableEq, Repr

/-- An observable side effect performed by an operation, in order. -/
inductive Effect
  | print (msg : String)
  | httpGet (url : String)
  | subproc (args : List String)
  | dbConnect (engine : Engine) (path : String)
  | fsWriteText (path content : String)
  | fsWriteRows (path : String) (rs : List String)
  | fsWriteImage (path : String) (img : Nat)
  | fsExists (path : String)
  | fsRead (path : String)
  | imageOpen (path : String)
  | modelLoad
  | transcribeAudio (path : String)
  | readCsv (path : String)
deriving DecidableEq, Repr

/-- Effects that write to the file system. -/
def Effect.isWrite : Effect → Bool
  | .fsWriteText _ _ => true
  | .fsWriteRows _ _ => true
  | .fsWriteImage _ _ => true
  | _ => false

/-- Effects that touch the outside world at all (everything except a
console print is I/O: network, subprocess, database, file system, model). -/
def Effect.isIO : Effect → Bool
  | .print _ => false
  | _ => true

/-- Oracles for the external collaborators.  A `.error` value models the
library call raising an exception; `subprocessRun args = some msg` models
`subprocess.run(args, check=True)` raising `CalledProcessError`. -/
structure Env where
  pathExists : String → Bool
  httpGet : String → Except String String
  subprocessRun : List String → Option String
  sqliteQuery : String → String → Except String (List String)
  duckdbQuery : String → String → Except String (List String)
  imageOpen : String → Except String Nat
  imageResize : Nat → Nat × Nat → Nat
  loadModel : Except String Nat
  transcribe : Nat → String → Except String String
  readFile : String → Except String String
  markdownRender : String → String
  readCsv : String → Except String Csv

/-- Outcome of running one operation: the ordered effect trace, and either
the Python return value (`Option Payload`, `none` = Python `None`) or an
uncaught exception that propagated to the caller. -/
abbrev PyRet := List Effect × Except String (Option Payload)

/-- The diagnostic printed on every sandbox rejection. -/
def sandboxMsg : String := "Access outside /data is not allowed."

/-- B12: the sandbox guard.  Returns `True` iff the path starts with
`/data` (a plain string-prefix test, no normalization). -/
def B12 (filepath : String) : Bool :=
  if pyStartswith filepath "/data" then true else false

/-- B3: fetch data from an API endpoint and save it to `save_path`. -/
def B3 (env : Env) (url save_path : String) : PyRet :=
  if !B12 save_path then
    ([.print sandboxMsg], .ok none)
  else
    match env.httpGet url with
    | .error e => ([.httpGet url], .error e)
    | .ok body =>
      ([.httpGet url, .fsWriteText save_path body,
        .print ("Fetched data from " ++ url ++ " and saved to " ++ save_path)],
       .ok none)

def gitPullArgs (clone_dir : String) : List String :=
  ["git", "-C", clone_dir, "pull"]

def gitCloneArgs (repo_url clone_dir : String) : List String :=
  ["git", "clone", repo_url, clone_dir]

def gitAddArgs (clone_dir file_path : String) : List String :=
  ["git", "-C", clone_dir, "add", file_path]

def gitCommitArgs (clone_dir commit_message : String) : List String :=
  ["git", "-C", clone_dir, "commit", "-m", commit_message]

/-- The local clone directory B4 derives from the repository URL:
`/data/` plus the URL's final path segment with `.git` stripped. -/
def cloneDir (repo_url : String) : String :=
  "/data/" ++ pyReplace ((repo_url.splitOn "/").getLastD "") ".git" ""

/-- B4: clone (or pull) a git repository under `/data`, write `content` to
the file at `os.path.join(clone_dir, file_path)` after guarding that
resolved path, then stage and commit.  Only `CalledProcessError` from the
subprocess calls is caught. -/
def B4 (env : Env) (repo_url : String)
    (commit_message : String := "Automated commit")
    (file_path : String := "README.md")
    (content : String := "Updated via automation") : PyRet :=
  let clone_dir := cloneDir repo_url
  let step1 : List Effect × Option String :=
    if env.pathExists clone_dir then
      ([.fsExists clone_dir,
        .print ("Repository already exists at " ++ clone_dir ++
          ". Pulling latest changes..."),
        .subproc (gitPullArgs clone_dir)],
       env.subprocessRun (gitPullArgs clone_dir))
    else
      ([.fsExists clone_dir,
        .print ("Cloning repository " ++ repo_url ++ " into " ++
          clone_dir ++ "..."),
        .subproc (gitCloneArgs repo_url clone_dir)],
       env.subprocessRun (gitCloneArgs repo_url clone_dir))
  match step1 with
  | (es, some err) => (es ++ [.print ("Error in Git operation: " ++ err)], .ok none)
  | (es, none) =>
    let full_file_path := osPathJoin clone_dir file_path
    if !B12 full_file_path then
      (es ++ [.print sandboxMsg], .ok none)
    else
      let es2 := es ++ [.fsWriteText full_file_path content,
        .subproc (gitAddArgs clone_dir file_path)]
      match env.subprocessRun (gitAddArgs clone_dir file_path) with
      | some err => (es2 ++ [.print ("Error in Git operation: " ++ err)], .ok none)
      | none =>
        let es3 := es2 ++ [.subproc (gitCommitArgs clone_dir commit_message)]
        match env.subprocessRun (gitCommitArgs clone_dir commit_message) with
        | some err => (es3 ++ [.print ("Error in Git operation: " ++ err)], .ok none)
        | none =>
          (es3 ++ [.print "Changes committed successfully."],
           .ok (some (.msg ("Repository " ++ repo_url ++ " updated successfully."))))

/-- The engine B5 dispatches to, and that engine's query result. -/
def dbDispatch (env : Env) (db_path query : String) :
    Engine × Except String (List String) :=
  if pyEndswith db_path ".db" then
    (.sqlite, env.sqliteQuery db_path query)
  else
    (.duckdb, env.duckdbQuery db_path query)

/-- B5: run a SQL query on SQLite or DuckDB (chosen by whether `db_path`
ends in `.db`) and write `str(result)` to `output_filename`.  The driver
calls are not wrapped in a handler. -/
def B5 (env : Env) (db_path query output_filename : String) : PyRet :=
  if !B12 db_path then
    ([.print sandboxMsg], .ok none)
  else if !B12 output_filename then
    ([.print sandboxMsg], .ok none)
  else
    match dbDispatch env db_path query with
    | (engine, .error e) => ([.dbConnect engine db_path], .error e)
    | (engine, .ok result) =>
      ([.dbConnect engine db_path,
        .fsWriteRows output_filename result,
        .print ("Query " ++ sq ++ query ++ sq ++
          " executed; results written to " ++ output_filename)],
       .ok (some (.rows result)))

/-- B6: fetch the HTML at `url` and write it to `output_filename`. -/
def B6 (env : Env) (url output_filename : String) : PyRet :=
  if !B12 output_filename then
    ([.print sandboxMsg], .ok none)
  else
    match env.httpGet url with
    | .error e => ([.httpGet url], .error e)
    | .ok body =>
      ([.httpGet url, .fsWriteText output_filename body,
        .print ("Scraped " ++ url ++ " and saved content to " ++ output_filename)],
       .ok none)

/-- B7: open an image, optionally resize it, and save it to `output_path`.
The image-library calls are not wrapped in a handler. -/
def B7 (env : Env) (image_path output_path : String)
    (resize : Option (Nat × Nat) := none) : PyRet :=
  if !B12 image_path then
    ([.print sandboxMsg], .ok none)
  else if !B12 output_path then
    ([.print sandboxMsg], .ok none)
  else
    match env.imageOpen image_path with
    | .error e => ([.imageOpen image_path], .error e)
    | .ok img =>
      let img2 := match resize with
        | some wh => env.imageResize img wh
        | none => img
      ([.imageOpen image_path, .fsWriteImage output_path img2,
        .print ("Image " ++ image_path ++ " processed and saved to " ++ output_path)],
       .ok none)

/-- B8: transcribe an audio file with a local speech model.  The existence
check runs before the sandbox guard; model loading and inference failures
are caught and reported. -/
def B8 (env : Env) (audio_path : String) : PyRet :=
  if !env.pathExists audio_path then
    ([.fsExists audio_path,
      .print ("Error: File " ++ sq ++ audio_path ++ sq ++ " does not exist.")],
     .ok none)
  else if !B12 audio_path then
    ([.fsExists audio_path, .print sandboxMsg], .ok none)
  else
    match env.loadModel with
    | .error e =>
      ([.fsExists audio_path, .modelLoad,
        .print ("Error in transcription: " ++ e)], .ok none)
    | .ok model =>
      match env.transcribe model audio_path with
      | .error e =>
        ([.fsExists audio_path, .modelLoad, .transcribeAudio audio_path,
          .print ("Error in transcription: " ++ e)], .ok none)
      | .ok text =>
        ([.fsExists audio_path, .modelLoad, .transcribeAudio audio_path,
          .print ("Transcription of " ++ audio_path ++ " completed.")],
         .ok (some (.text text)))

/-- B9: convert a Markdown file to HTML.  When `output_file` is omitted the
output path is `markdown_file.replace(".md", ".html")` (every occurrence).
Read, render and write failures are caught and reported. -/
def B9 (env : Env) (markdown_file : String)
    (output_file : Option String := none) : PyRet :=
  if !B12 markdown_file then
    ([.print sandboxMsg], .ok none)
  else if (match output_file with | some o => !B12 o | none => false) then
    ([.print sandboxMsg], .ok none)
  else if !env.pathExists markdown_file then
    ([.fsExists markdown_file,
      .print ("Error: File " ++ sq ++ markdown_file ++ sq ++ " does not exist.")],
     .ok none)
  else
    match env.readFile markdown_file with
    | .error e =>
      ([.fsExists markdown_file, .fsRead markdown_file,
        .print ("Error in Markdown to HTML conversion: " ++ e)], .ok none)
    | .ok md_content =>
      let html_content := env.markdownRender md_content
      let out := match output_file with
        | some o => o
        | none => pyReplace markdown_file ".md" ".html"
      ([.fsExists markdown_file, .fsRead markdown_file,
        .fsWriteText out html_content,
        .print ("Markdown converted to HTML: " ++ out)],
       .ok (some (.text html_content)))

/-- B10: filter a CSV file on `filter_column = filter_value` and return the
matching rows as JSON records.  The tabular-library calls are wrapped in a
handler; a missing column is reported by name. -/
def B10 (env : Env) (csv_file filter_column filter_value : String) : PyRet :=
  if !B12 csv_file then
    ([.print sandboxMsg], .ok none)
  else if !env.pathExists csv_file then
    ([.fsExists csv_file,
      .print ("Error: File " ++ sq ++ csv_file ++ sq ++ " does not exist.")],
     .ok none)
  else
    match env.readCsv csv_file with
    | .error e =>
      ([.fsExists csv_file, .readCsv csv_file,
        .print ("Error in filtering CSV: " ++ e)], .ok none)
    | .ok df =>
      if !df.header.contains filter_column then
        ([.fsExists csv_file, .readCsv csv_file,
          .print ("Error: Column " ++ sq ++ filter_column ++ sq ++
            " not found in " ++ csv_file)], .ok none)
      else
        let idx := df.header.indexOf filter_column
        let filtered := df.rows.filter (fun row => row.getD idx "" == filter_value)
        let records := filtered.map (fun row => df.header.zip row)
        ([.fsExists csv_file, .readCsv csv_file,
          .print ("Filtered " ++ csv_file ++ " on " ++ filter_column ++
            "=" ++ filter_value)],
         .ok (some (.records records)))

/-- A benign concrete environment: every external call succeeds trivially. -/
def env0 : Env where
  pathExists := fun _ => false
  httpGet := fun _ => .ok "body"
  subprocessRun := fun _ => none
  sqliteQuery := fun _ _ => .ok []
  duckdbQuery := fun _ _ => .ok []
  imageOpen := fun _ => .ok 0
  imageResize := fun i _ => i
  loadModel := .ok 0
  transcribe := fun _ _ => .ok "hello"
  readFile := fun _ => .ok "# Hi"
  markdownRender := fun s => s
  readCsv := fun _ => .ok ⟨[], []⟩

/-- The guard computes exactly the character-list prefix test. -/
theorem B12_eq_startsWith (p : String) :
    B12 p = listStartsWith ("/data").data p.data := by
  have h : ∀ b : Bool, (if b = true then true else false) = b := fun b => by
    cases b <;> rfl
  exact h (listStartsWith ("/data").data p.data)

/-- C2: the sandbox guard B12 returns true exactly when the path string
begins with the literal characters `/data`; no normalization of `..`
segments, symlinks or trailing slashes happens before the comparison, as
the concrete traversal-style paths illustrate. -/
theorem B12_is_plain_string_test :
    (∀ p : String, B12 p = true ↔ ∃ t, p.data = ("/data").data ++ t)
    ∧ B12 "/data/../etc/passwd" = true
    ∧ B12 "/data/subdir/" = true
    ∧ B12 "/tmp/../data/x" = false := by
  refine ⟨fun p => ?_, by decide, by decide, by decide⟩
  rw [B12_eq_startsWith, listStartsWith_iff]

/-- C9: the guard accepts `/database/secret`, a sibling path that merely
begins with the characters `/data` but is neither the sandbox root itself
nor inside the `/data/` directory. -/
theorem B12_accepts_sibling_of_sandbox :
    B12 "/database/secret" = true
    ∧ "/database/secret" ≠ "/data"
    ∧ ∀ t : List Char, ("/database/secret").data ≠ ("/data/").data ++ t := by
  refine ⟨by decide, by decide, fun t h => ?_⟩
  exact absurd ((listStartsWith_iff ("/data/").data ("/database/secret").data).mpr
    ⟨t, h⟩) (by decide)

/-- C4: for guard-passing paths, B5 connects to the sqlite engine exactly
when the database path ends in `.db` and never invokes duckdb then, and
connects to duckdb for every other path, never invoking sqlite. -/
theorem B5_engine_dispatch (env : Env) (db q out : String)
    (hdb : B12 db = true) (hout : B12 out = true) :
    (pyEndswith db ".db" = true →
      Effect.dbConnect .sqlite db ∈ (B5 env db q out).1
      ∧ ∀ p, Effect.dbConnect .duckdb p ∉ (B5 env db q out).1)
    ∧ (pyEndswith db ".db" = false →
      Effect.dbConnect .duckdb db ∈ (B5 env db q out).1
      ∧ ∀ p, Effect.dbConnect .sqlite p ∉ (B5 env db q out).1) := by
  constructor
  · intro hext
    cases hq : env.sqliteQuery db q <;>
      simp [B5, dbDispatch, hdb, hout, hext, hq]
  · intro hext
    cases hq : env.duckdbQuery db q <;>
      simp [B5, dbDispatch, hdb, hout, hext, hq]

theorem B5_engine_dispatch_witness :
    Effect.dbConnect .sqlite "/data/a.db" ∈ (B5 env0 "/data/a.db" "q" "/data/o").1 :=
  ((B5_engine_dispatch env0 "/data/a.db" "q" "/data/o"
    (by decide) (by decide)).1 (by decide)).1

/-- Environment in which every file exists and reads succeed. -/
def envMd : Env := { env0 with pathExists := fun _ => true }

/-- C5 fails as stated: with the output path omitted, B9 replaces every
occurrence of ".md" in the input path, not only a trailing suffix.  On
input `/data/a.md.md` the file written is `/data/a.html.html`, not the
sibling `/data/a.md.html` with only the extension swapped. -/
theorem B9_default_output_counterexample :
    (B9 envMd "/data/a.md.md" none).1.filter Effect.isWrite
      = [.fsWriteText "/data/a.html.html" "# Hi"]
    ∧ "/data/a.html.html" ≠ "/data/a.md.html" := by decide

/-- C5 amended: with the output path omitted, for an existing readable
input under the sandbox, B9 writes the rendered HTML exactly to the path
obtained from the input by replacing every non-overlapping occurrence of
".md" with ".html" (Python `str.replace` semantics); when ".md" occurs
only as the trailing suffix this coincides with swapping the extension. -/
theorem B9_default_output (env : Env) (m md : String)
    (hg : B12 m = true) (hex : env.pathExists m = true)
    (hread : env.readFile m = .ok md) :
    (B9 env m none).2 = .ok (some (.text (env.markdownRender md)))
    ∧ (B9 env m none).1.filter Effect.isWrite
      = [.fsWriteText (pyReplace m ".md" ".html") (env.markdownRender md)] := by
  simp [B9, hg, hex, hread, Effect.isWrite, List.filter]

theorem B9_default_output_witness :
    (B9 envMd "/data/doc.md" none).1.filter Effect.isWrite
      = [.fsWriteText "/data/doc.html" "# Hi"] := by
  rw [(B9_default_output envMd "/data/doc.md" "# Hi" (by decide) rfl rfl).2]
  decide

/-- Environment returning a concrete two-column CSV table. -/
def envCsv : Env :=
  { env0 with
    pathExists := fun _ => true
    readCsv := fun _ => .ok ⟨["a", "b"], [["1", "x"], ["2", "y"], ["1", "z"]]⟩ }

/-- C7: when the CSV parses but its columns lack the filter column, B10
returns None together with a diagnostic naming the missing column — not an
empty JSON array. -/
theorem B10_missing_column_reports_failure (env : Env)
    (csv_file col v : String) (df : Csv)
    (hg : B12 csv_file = true) (hex : env.pathExists csv_file = true)
    (hread : env.readCsv csv_file = .ok df)
    (hcol : df.header.contains col = false) :
    (B10 env csv_file col v).2 = .ok none
    ∧ Effect.print ("Error: Column " ++ sq ++ col ++ sq ++
        " not found in " ++ csv_file) ∈ (B10 env csv_file col v).1
    ∧ (B10 env csv_file col v).2 ≠ .ok (some (.records [])) := by
  have hcol2 : ¬ col ∈ df.header := by simpa using hcol
  simp [B10, hg, hex, hread, hcol2]

theorem B10_missing_column_reports_failure_witness :
    (B10 envCsv "/data/t.csv" "zzz" "1").2 = .ok none :=
  (B10_missing_column_reports_failure envCsv "/data/t.csv" "zzz" "1"
    ⟨["a", "b"], [["1", "x"], ["2", "y"], ["1", "z"]]⟩
    (by decide) rfl rfl (by decide)).1

/-- C6: when the CSV parses, contains the filter column and is rectangular,
B10 returns the records of exactly the rows whose value in that column
equals the filter value (exact equality, not substring or regex match), in
the original row order, each record pairing all original columns in source
column order with the row values. -/
theorem B10_filters_exact_rows (env : Env) (csv_file col v : String)
    (df : Csv)
    (hg : B12 csv_file = true) (hex : env.pathExists csv_file = true)
    (hread : env.readCsv csv_file = .ok df)
    (hcol : df.header.contains col = true)
    (hrect : ∀ row ∈ df.rows, row.length = df.header.length) :
    ∃ recs,
      (B10 env csv_file col v).2 = .ok (some (.records recs))
      ∧ recs = (df.rows.filter
          (fun row => row.getD (df.header.indexOf col) "" == v)).map
          (fun row => df.header.zip row)
      ∧ ∀ rec ∈ recs, rec.map Prod.fst = df.header := by
  have hcol2 : col ∈ df.header := by simpa using hcol
  refine ⟨_, by simp [B10, hg, hex, hread, hcol2], rfl, ?_⟩
  intro rec hrec
  simp only [List.mem_map] at hrec
  obtain ⟨row, hrow, rfl⟩ := hrec
  exact List.map_fst_zip _ _ (le_of_eq (hrect row (List.mem_of_mem_filter hrow)).symm)

theorem B10_filters_exact_rows_witness :
    (B10 envCsv "/data/t.csv" "a" "1").2
      = .ok (some (.records [[("a", "1"), ("b", "x")], [("a", "1"), ("b", "z")]])) := by
  obtain ⟨recs, h1, h2, -⟩ := B10_filters_exact_rows envCsv "/data/t.csv" "a" "1"
    ⟨["a", "b"], [["1", "x"], ["2", "y"], ["1", "z"]]⟩
    (by decide) rfl rfl (by decide) (by decide)
  rw [h1, h2]
  decide

/-- C8: B8 returns None with no transcription whenever the audio file is
missing or outside the sandbox; existence is checked first (a missing
file yields the missing-file diagnostic even for out-of-sandbox paths),
and transcription is attempted only when both checks pass. -/
theorem B8_existence_check_precedes_guard (env : Env) (p : String) :
    (env.pathExists p = false →
      (B8 env p).2 = .ok none
      ∧ (B8 env p).1 = [.fsExists p,
          .print ("Error: File " ++ sq ++ p ++ sq ++ " does not exist.")])
    ∧ (env.pathExists p = true → B12 p = false →
      (B8 env p).2 = .ok none
      ∧ (B8 env p).1 = [.fsExists p, .print sandboxMsg])
    ∧ (Effect.transcribeAudio p ∈ (B8 env p).1 →
      env.pathExists p = true ∧ B12 p = true) := by
  refine ⟨fun h => by simp [B8, h], fun h1 h2 => by simp [B8, h1, h2],
    fun hmem => ?_⟩
  by_cases h1 : env.pathExists p = true
  · by_cases h2 : B12 p = true
    · exact ⟨h1, h2⟩
    · rw [Bool.not_eq_true] at h2
      simp [B8, h1, h2] at hmem
  · rw [Bool.not_eq_true] at h1
    simp [B8, h1] at hmem

theorem B8_existence_check_precedes_guard_witness :
    (B8 env0 "/tmp/a.mp3").2 = .ok none
    ∧ (B8 env0 "/tmp/a.mp3").1 = [.fsExists "/tmp/a.mp3",
        .print ("Error: File " ++ sq ++ "/tmp/a.mp3" ++ sq ++ " does not exist.")] :=
  (B8_existence_check_precedes_guard env0 "/tmp/a.mp3").1 rfl

/-- C10: `os.path.join` discards the clone directory when the file path is
absolute, so B4 applies the guard to the caller-supplied absolute path;
any absolute path beginning with `/data` passes the guard, and B4 writes
the content to that location — wherever it is — and reports success,
independently of which clone directory the URL selects. -/
theorem B4_absolute_path_escapes_clone (env : Env)
    (repo_url cm content file_path : String)
    (habs : pyStartswith file_path "/" = true)
    (hdata : B12 file_path = true)
    (hsub : ∀ args, env.subprocessRun args = none) :
    osPathJoin (cloneDir repo_url) file_path = file_path
    ∧ Effect.fsWriteText file_path content
        ∈ (B4 env repo_url cm file_path content).1
    ∧ (B4 env repo_url cm file_path content).2
      = .ok (some (.msg ("Repository " ++ repo_url ++ " updated successfully."))) := by
  have hjoin : osPathJoin (cloneDir repo_url) file_path = file_path := by
    simp [osPathJoin, habs]
  refine ⟨hjoin, ?_⟩
  cases hpe : env.pathExists (cloneDir repo_url) <;>
    simp [B4, hpe, hsub, hjoin, hdata]

theorem B4_absolute_path_escapes_clone_witness :
    Effect.fsWriteText "/data/elsewhere/f.txt" "c"
      ∈ (B4 env0 "https://h/r.git" "m" "/data/elsewhere/f.txt" "c").1 :=
  (B4_absolute_path_escapes_clone env0 "https://h/r.git" "m" "c"
    "/data/elsewhere/f.txt" (by decide) (by decide) (fun _ => rfl)).2.1

/-- B8 wraps model loading and inference in a handler: it never lets an
exception propagate. -/
theorem B8_never_raises (env : Env) (p : String) :
    ∃ r, (B8 env p).2 = .ok r := by
  cases h1 : env.pathExists p
  · simp [B8, h1]
  · cases h2 : B12 p
    · simp [B8, h1, h2]
    · cases h3 : env.loadModel with
      | error e => simp [B8, h1, h2, h3]
      | ok model =>
        cases h4 : env.transcribe model p <;> simp [B8, h1, h2, h3, h4]

/-- B9 wraps reading, rendering and writing in a handler: it never lets an
exception propagate. -/
theorem B9_never_raises (env : Env) (m : String) (o : Option String) :
    ∃ r, (B9 env m o).2 = .ok r := by
  cases h1 : B12 m
  · simp [B9, h1]
  · cases o with
    | some out =>
      cases h2 : B12 out
      · simp [B9, h1, h2]
      · cases h3 : env.pathExists m
        · simp [B9, h1, h2, h3]
        · cases h4 : env.readFile m <;> simp [B9, h1, h2, h3, h4]
    | none =>
      cases h3 : env.pathExists m
      · simp [B9, h1, h3]
      · cases h4 : env.readFile m <;> simp [B9, h1, h3, h4]

/-- B10 wraps the tabular-library calls in a handler: it never lets an
exception propagate. -/
theorem B10_never_raises (env : Env) (c col v : String) :
    ∃ r, (B10 env c col v).2 = .ok r := by
  cases h1 : B12 c
  · simp [B10, h1]
  · cases h2 : env.pathExists c
    · simp [B10, h1, h2]
    · cases h3 : env.readCsv c with
      | error e => simp [B10, h1, h2, h3]
      | ok df =>
        by_cases h4 : col ∈ df.header <;> simp [B10, h1, h2, h3, h4]

/-- B4 catches `CalledProcessError` from each of its subprocess calls: in
the model (where file writes do not fail) it never lets an exception
propagate. -/
theorem B4_never_raises (env : Env) (ru cm fp ct : String) :
    ∃ r, (B4 env ru cm fp ct).2 = .ok r := by
  cases h1 : env.pathExists (cloneDir ru)
  · cases h2 : env.subprocessRun (gitCloneArgs ru (cloneDir ru))
    · cases h3 : B12 (osPathJoin (cloneDir ru) fp)
      · simp [B4, h1, h2, h3]
      · cases h4 : env.subprocessRun (gitAddArgs (cloneDir ru) fp)
        · cases h5 : env.subprocessRun (gitCommitArgs (cloneDir ru) cm) <;>
            simp [B4, h1, h2, h3, h4, h5]
        · simp [B4, h1, h2, h3, h4]
    · simp [B4, h1, h2]
  · cases h2 : env.subprocessRun (gitPullArgs (cloneDir ru))
    · cases h3 : B12 (osPathJoin (cloneDir ru) fp)
      · simp [B4, h1, h2, h3]
      · cases h4 : env.subprocessRun (gitAddArgs (cloneDir ru) fp)
        · cases h5 : env.subprocessRun (gitCommitArgs (cloneDir ru) cm) <;>
            simp [B4, h1, h2, h3, h4, h5]
        · simp [B4, h1, h2, h3, h4]
    · simp [B4, h1, h2]

/-- Environment whose HTTP client raises on every request. -/
def envHttpFail : Env := { env0 with httpGet := fun _ => .error "connection refused" }

/-- C3 fails as stated: B3 performs its HTTP request outside any handler,
so on a guard-passing destination a failing request propagates to the
caller as a raw exception instead of being caught and reported. -/
theorem B3_propagates_http_exception :
    (B3 envHttpFail "http://example.com" "/data/out.txt").2
      = .error "connection refused" := by decide

/-- C3 amended: B8, B9 and B10 catch all their modelled external-call
failures, and B4 catches its subprocess failures, each returning a failure
indicator; but B3, B5, B6 and B7 run their external calls (HTTP request,
database driver, image library) outside any handler, so when such a call
fails the raw exception propagates to the caller. -/
theorem external_failure_policy (env : Env) :
    (∀ p, ∃ r, (B8 env p).2 = .ok r)
    ∧ (∀ m o, ∃ r, (B9 env m o).2 = .ok r)
    ∧ (∀ c col v, ∃ r, (B10 env c col v).2 = .ok r)
    ∧ (∀ ru cm fp ct, ∃ r, (B4 env ru cm fp ct).2 = .ok r)
    ∧ (∀ u p e, B12 p = true → env.httpGet u = .error e →
        (B3 env u p).2 = .error e ∧ (B6 env u p).2 = .error e)
    ∧ (∀ db q out e, B12 db = true → B12 out = true →
        (dbDispatch env db q).2 = .error e → (B5 env db q out).2 = .error e)
    ∧ (∀ ip op rs e, B12 ip = true → B12 op = true →
        env.imageOpen ip = .error e → (B7 env ip op rs).2 = .error e) := by
  refine ⟨B8_never_raises env, B9_never_raises env, B10_never_raises env,
    B4_never_raises env, fun u p e hg herr => ?_,
    fun db q out e hdb hout herr => ?_,
    fun ip op rs e hip hop herr => ?_⟩
  · exact ⟨by simp [B3, hg, herr], by simp [B6, hg, herr]⟩
  · rcases hd : dbDispatch env db q with ⟨eng, r⟩
    rw [hd] at herr
    simp only at herr
    subst herr
    simp [B5, hdb, hout, hd]
  · simp [B7, hip, hop, herr]

theorem external_failure_policy_witness :
    (B6 envHttpFail "http://example.com" "/data/page.html").2
      = .error "connection refused" :=
  ((external_failure_policy envHttpFail).2.2.2.2.1 "http://example.com"
    "/data/page.html" "connection refused" (by decide) rfl).2

/-- C1: for any path P the guard rejects, each operation taking P as a
write target performs no I/O at all — its whole trace is the single
sandbox diagnostic, so the path was validated before any I/O attempt —
and returns None.  For B4, whose guard applies to the resolved file path
only after the clone/pull subprocess, a rejected resolved path still
yields None and no operation-level file write, but the trace retains the
clone/pull subprocess invocation that ran before the guard. -/
theorem sandbox_rejection_no_writes (env : Env) (P : String)
    (hP : B12 P = false) :
    (∀ url, (B3 env url P).1 = [.print sandboxMsg] ∧ (B3 env url P).2 = .ok none)
    ∧ (∀ q out, (B5 env P q out).1 = [.print sandboxMsg]
        ∧ (B5 env P q out).2 = .ok none)
    ∧ (∀ db q, (B5 env db q P).1 = [.print sandboxMsg]
        ∧ (B5 env db q P).2 = .ok none)
    ∧ (∀ url, (B6 env url P).1 = [.print sandboxMsg] ∧ (B6 env url P).2 = .ok none)
    ∧ (∀ op rs, (B7 env P op rs).1 = [.print sandboxMsg]
        ∧ (B7 env P op rs).2 = .ok none)
    ∧ (∀ ip rs, (B7 env ip P rs).1 = [.print sandboxMsg]
        ∧ (B7 env ip P rs).2 = .ok none)
    ∧ (∀ o, (B9 env P o).1 = [.print sandboxMsg] ∧ (B9 env P o).2 = .ok none)
    ∧ (∀ m, (B9 env m (some P)).1 = [.print sandboxMsg]
        ∧ (B9 env m (some P)).2 = .ok none)
    ∧ (∀ col v, (B10 env P col v).1 = [.print sandboxMsg]
        ∧ (B10 env P col v).2 = .ok none)
    ∧ (∀ ru cm ct fp, B12 (osPathJoin (cloneDir ru) fp) = false →
        (B4 env ru cm fp ct).1.filter Effect.isWrite = []
        ∧ (B4 env ru cm fp ct).2 = .ok none
        ∧ ((∀ args, env.subprocessRun args = none) →
            ∃ args, Effect.subproc args ∈ (B4 env ru cm fp ct).1)) := by
  refine ⟨fun url => by simp [B3, hP],
    fun q out => by simp [B5, hP],
    fun db q => ?_,
    fun url => by simp [B6, hP],
    fun op rs => by simp [B7, hP],
    fun ip rs => ?_,
    fun o => by cases o <;> simp [B9, hP],
    fun m => ?_,
    fun col v => by simp [B10, hP],
    fun ru cm ct fp hguard => ?_⟩
  · cases hdb : B12 db <;> simp [B5, hP, hdb]
  · cases hip : B12 ip <;> simp [B7, hP, hip]
  · cases hm : B12 m <;> simp [B9, hP, hm]
  · cases h1 : env.pathExists (cloneDir ru)
    · cases h2 : env.subprocessRun (gitCloneArgs ru (cloneDir ru)) with
      | none =>
        refine ⟨by simp [B4, h1, h2, hguard, Effect.isWrite],
          by simp [B4, h1, h2, hguard], fun _ => ?_⟩
        exact ⟨gitCloneArgs ru (cloneDir ru), by simp [B4, h1, h2, hguard]⟩
      | some err =>
        refine ⟨by simp [B4, h1, h2, Effect.isWrite],
          by simp [B4, h1, h2], fun hall => ?_⟩
        rw [hall (gitCloneArgs ru (cloneDir ru))] at h2
        exact absurd h2 (by simp)
    · cases h2 : env.subprocessRun (gitPullArgs (cloneDir ru)) with
      | none =>
        refine ⟨by simp [B4, h1, h2, hguard, Effect.isWrite],
          by simp [B4, h1, h2, hguard], fun _ => ?_⟩
        exact ⟨gitPullArgs (cloneDir ru), by simp [B4, h1, h2, hguard]⟩
      | some err =>
        refine ⟨by simp [B4, h1, h2, Effect.isWrite],
          by simp [B4, h1, h2], fun hall => ?_⟩
        rw [hall (gitPullArgs (cloneDir ru))] at h2
        exact absurd h2 (by simp)

theorem sandbox_rejection_no_writes_witness :
    (B3 env0 "http://example.com" "/tmp/x").2 = .ok none
    ∧ (B4 env0 "https://h/r.git" "m" "/etc/passwd" "c").2 = .ok none := by
  have h := sandbox_rejection_no_writes env0 "/tmp/x" (by decide)
  exact ⟨(h.1 "http://example.com").2,
    (h.2.2.2.2.2.2.2.2.2 "https://h/r.git" "m" "c" "/etc/passwd" (by decide)).2.1⟩

end LlmAgent
